import Mathlib

/-!
Verification of the `modl` classification layer
(`src/modl/classification/fmri.py`) and of the spec-level contracts of the
decomposition engine (`CodeSolver`, `DictionaryUpdater`), as a shallow
embedding in Lean 4.

Conventions of the embedding:
* numpy matrices become `Mat`: explicit row/column counts together with a
  total entry function over `ℚ` (entries outside the stated bounds are
  clamped to `0` where a definition produces a matrix);
* Python runtime failures (NameError, TypeError, AttributeError, ...)
  become an `Except PyErr` result;
* external library objects (`LogisticRegression`, `GridSearchCV`,
  `LabelEncoder`) become records holding exactly the configuration the
  repository code sets on them, with `fit` recording the data it was given;
  the held-out score that `GridSearchCV` computes for a candidate
  regularization strength is an explicit function parameter `score`;
* `np.empty` (uninitialized memory) becomes an explicit function parameter
  `mem` providing the value of every cell that the code never writes.
-/

set_option autoImplicit false

/-- Python runtime errors that the embedded code can raise. -/
inductive PyErr where
  | nameError
  | typeError
  | attributeError
  | valueError
  | assertionError
  | indexError
  deriving DecidableEq, Repr

/-- A numpy 2-d array: row count, column count and a total entry function. -/
structure Mat where
  rows : ℕ
  cols : ℕ
  entry : ℕ → ℕ → ℚ

/-- Transpose of a matrix (`basis.T`, `X.T` in the source). -/
def Mat.transpose (M : Mat) : Mat :=
  ⟨M.cols, M.rows, fun i j => M.entry j i⟩

/-- The regularization argument `C` of `_logistic_regression`: Python lets a
single number or an iterable of numbers through the same parameter; the
source discriminates the two with `hasattr(C, '__iter__')`. -/
inductive CParam where
  | num (c : ℚ)
  | list (cs : List ℚ)
  deriving DecidableEq, Repr

/-- The `max_iter` argument as Python sees it: an `int`, or the one-element
tuple that `fMRITaskClassifier.__init__` accidentally builds
(`self.max_iter = max_iter,`). -/
inductive MaxIterArg where
  | int (n : ℚ)
  | tuple (n : ℚ)
  deriving DecidableEq, Repr

/-- Python `max_iter / 10` (line `early_max_iter = max_iter / 10`): defined
on numbers, a `TypeError` on a tuple. -/
def pyDivTen : MaxIterArg → Except PyErr ℚ
  | .int n => .ok (n / 10)
  | .tuple _ => .error .typeError

/-- The `LogisticRegression` estimator (optionally wrapped in a
`Pipeline` with a `StandardScaler`, recorded by `standardized`), holding the
configuration the source sets and a record of the data of its direct `fit`
calls.  `nFits` counts the direct `fit` calls made on it. -/
structure LRModel where
  C : CParam
  tol : ℚ
  max_iter : MaxIterArg
  standardized : Bool
  random_state : Option ℕ
  fitted : Option (Mat × List ℕ)
  nFits : ℕ

/-- The `GridSearchCV` object as configured at source lines 117-121:
estimator snapshot, parameter grid over `C`, `ShuffleSplit` cross
validation (recorded by `cv_shuffled` and `test_size`), `refit=False`,
and the best parameter found by its `fit`. -/
structure GridSearchCVState where
  estimator : LRModel
  param_grid : List ℚ
  cv_shuffled : Bool
  test_size : ℚ
  refit : Bool
  n_jobs : ℕ
  best_params_ : Option ℚ

/-- Selection rule of `GridSearchCV.best_params_`: the candidate maximizing
the held-out score, earliest candidate winning ties. -/
def selectBest (score : ℚ → ℚ) (c : ℚ) (cs : List ℚ) : ℚ :=
  cs.foldl (fun b d => if score b < score d then d else b) c

/-- Shallow embedding of `_logistic_regression` (fmri.py lines 91-128).
The body: resolve `early_tol`/`early_max_iter` defaults, build the
estimator at the loose tolerance, build `grid_lr` only when `C` is
iterable, then unconditionally run `grid_lr.fit`, read
`grid_lr.best_params_`, push the best parameters and the strict
`tol`/`max_iter` onto the estimator and fit it once on the full training
data.  When `C` is a plain number the local variable `grid_lr` was never
assigned, so the unconditional `grid_lr.fit(X_train, y_train)` raises
`NameError`; an empty iterable makes `GridSearchCV.fit` raise.  The
parameter names in the grid (`logistic_regression__C`, line 118) and in
both `set_params` calls (lines 124-126) address the step of the `Pipeline`
built only under `standardize`: with a non-empty iterable `C` but
`standardize=False`, the per-candidate `set_params` that `grid_lr.fit`
performs on clones of the bare `LogisticRegression` raises `ValueError`
(invalid parameter), so the search never completes in that configuration.
`score` is the held-out score `GridSearchCV` computes per candidate. -/
def logisticRegression (X : Mat) (y : List ℕ) (standardize : Bool)
    (C : CParam) (tol : ℚ) (max_iter : MaxIterArg)
    (early_tol : Option ℚ) (early_max_iter : Option ℚ)
    (test_size : ℚ) (n_jobs : ℕ) (verbose : ℕ) (random_state : Option ℕ)
    (score : ℚ → ℚ) : Except PyErr (LRModel × GridSearchCVState) :=
  let early_tol := early_tol.getD (tol * 100)
  match (match early_max_iter with
         | some m => Except.ok m
         | none => pyDivTen max_iter) with
  | .error e => .error e
  | .ok early_max_iter =>
    let lr : LRModel :=
      { C := C, tol := early_tol, max_iter := .int early_max_iter,
        standardized := standardize, random_state := random_state,
        fitted := none, nFits := 0 }
    match C with
    | .num _ => .error .nameError
    | .list cs =>
      let grid_lr : GridSearchCVState :=
        { estimator := lr, param_grid := cs, cv_shuffled := true,
          test_size := test_size, refit := false, n_jobs := n_jobs,
          best_params_ := none }
      match cs with
      | [] => .error .valueError
      | c0 :: rest =>
        if standardize = false then .error .valueError else
        let best := selectBest score c0 rest
        let grid_lr := { grid_lr with best_params_ := some best }
        let lr := { lr with C := CParam.num best }
        let lr := { lr with tol := tol, max_iter := max_iter }
        let lr := { lr with fitted := some (X, y), nFits := lr.nFits + 1 }
        Except.ok (lr, grid_lr)

/-- Sum of the component counts (`basis.shape[0]`) of a list of bases. -/
def sumRows (bs : List Mat) : ℕ :=
  (bs.map Mat.rows).sum

/-- State of a `MultiProjectionTransformer` instance.  Python attributes
live on the instance; `basis` and `n_loadings_` are `Option`s because
`__init__` (lines 16-19) assigns neither of them — it only assigns
`bases` and `identity`. -/
structure MPTState where
  bases : List Mat
  identity : Bool
  basis : Option (List Mat)
  n_loadings_ : Option ℕ

/-- `MultiProjectionTransformer.__init__` (fmri.py lines 16-19): stores
`bases` and `identity`; the attributes `basis` and `n_loadings_` are left
unassigned. -/
def MultiProjectionTransformer.init (bases : List Mat) (identity : Bool) :
    MPTState :=
  { bases := bases, identity := identity, basis := none, n_loadings_ := none }

/-- `MultiProjectionTransformer.fit` (fmri.py lines 21-31).  The first
statement evaluates `isinstance(self.basis, list)`: reading the attribute
`basis` raises `AttributeError` whenever it was never assigned.  Were the
attribute present (a list in this embedding, so the `isinstance` guard is
false and no reassignment happens), the method would go on to sum the
`shape[0]`s into `n_loadings_`, index `n_features[0]` (an `IndexError` on
an empty `bases`) and assert that all bases share one feature count. -/
def MultiProjectionTransformer.fit (st : MPTState) : Except PyErr MPTState :=
  match st.basis with
  | none => .error .attributeError
  | some _ =>
    match st.bases with
    | [] => .error .indexError
    | b :: _ =>
      if (st.bases.map Mat.cols).all (fun c => c = b.cols) then
        let n := sumRows st.bases + (if st.identity then b.cols else 0)
        .ok { st with n_loadings_ := some n }
      else .error .assertionError

/-- Value the `transform` loop (fmri.py lines 36-41) writes at cell
`(i, j)` of `loadings`: walking the bases with a running column `off`set,
the block of the first basis whose column range contains `j` supplies
`linalg.solve(basis.T, X.T)[i, j - off]`; `none` when the loop writes no
value at column `j`.  `lsolve` is the external `numpy.linalg.solve`. -/
def blockEntry (lsolve : Mat → Mat → Mat) (X : Mat) :
    List Mat → ℕ → ℕ → ℕ → Option ℚ
  | [], _, _, _ => none
  | b :: rest, off, i, j =>
    if j < off + b.rows then
      some ((lsolve b.transpose X.transpose).entry i (j - off))
    else blockEntry lsolve X rest (off + b.rows) i j

/-- `MultiProjectionTransformer.transform` (fmri.py lines 33-44): reads
`self.n_loadings_` (`AttributeError` when absent), allocates
`np.empty((n_samples, n_loadings_))` — the parameter `mem` supplies the
uninitialized cells — writes one column block per basis from
`linalg.solve(basis.T, X.T)` (the external solver is the parameter
`lsolve`), and, when `identity` is set, writes `X` into the remaining
columns starting at the total block width. -/
def MultiProjectionTransformer.transform (lsolve : Mat → Mat → Mat)
    (mem : ℕ → ℕ → ℚ) (st : MPTState) (X : Mat) : Except PyErr Mat :=
  match st.n_loadings_ with
  | none => .error .attributeError
  | some L =>
    .ok ⟨X.rows, L, fun i j =>
      if j < L then
        match blockEntry lsolve X st.bases 0 i j with
        | some v => v
        | none =>
          if st.identity = true ∧ sumRows st.bases ≤ j then
            X.entry i (j - sumRows st.bases)
          else mem i j
      else 0⟩

/-- A fitted `LabelEncoder`: the class list learned by `fit_transform`. -/
structure LabelEnc where
  classes : List ℕ

/-- `LabelEncoder().fit_transform(y)`'s fitted state: the distinct labels
of `y`. -/
def LabelEnc.fitOn (y : List ℕ) : LabelEnc :=
  ⟨y.dedup⟩

/-- Encoding of a label list by a fitted `LabelEncoder`. -/
def LabelEnc.transformList (le : LabelEnc) (y : List ℕ) : List ℕ :=
  y.map (fun v => le.classes.indexOf v)

/-- `LabelEncoder.inverse_transform` on a list of encoded labels. -/
def LabelEnc.inverse_transform (le : LabelEnc) (y : List ℕ) : List ℕ :=
  y.map (fun i => le.classes.getD i 0)

/-- A transformer object as `fMRITaskClassifier` duck-types it: a
`transform` method, and `call` — the `__call__` slot, `none` when the
class defines no `__call__` (as `MultiProjectionTransformer` does not),
in which case `transformer(imgs)` raises `TypeError`. -/
structure TransformerObj where
  transform : Mat → Mat
  call : Option (Mat → Mat)

/-- A one-element Python tuple `(v,)`. -/
structure PyTuple1 (α : Type) where
  val : α
  deriving DecidableEq, Repr

/-- Prediction of a fitted estimator on new data.  The numeric behaviour
of the external solver is irrelevant to every claim about this repository;
only the call structure around it is modelled. -/
def LRModel.predictOn (lr : LRModel) (X : Mat) : List ℕ :=
  List.replicate X.rows 0

/-- State of an `fMRITaskClassifier` instance: the constructor arguments
as `__init__` (fmri.py lines 48-69) stores them — note `max_iter` is held
as a one-element tuple because of the trailing comma on line 64 — plus the
attributes `le_` and `lr_` that only `fit` assigns. -/
structure FMRIClfState where
  transformer : TransformerObj
  C : CParam
  standardize : Bool
  max_iter : PyTuple1 ℚ
  tol : ℚ
  random_state : Option ℕ
  n_jobs : ℕ
  memory_level : ℕ
  le_ : Option LabelEnc
  lr_ : Option LRModel

/-- `fMRITaskClassifier.__init__` (fmri.py lines 48-69): every argument is
stored unchanged except `max_iter`, which the trailing comma of
`self.max_iter = max_iter,` wraps into a one-element tuple. -/
def fMRITaskClassifier.init (transformer : TransformerObj) (C : CParam)
    (standardize : Bool) (max_iter : ℚ) (tol : ℚ)
    (random_state : Option ℕ) (n_jobs : ℕ) (memory_level : ℕ) :
    FMRIClfState :=
  { transformer := transformer, C := C, standardize := standardize,
    max_iter := ⟨max_iter⟩, tol := tol, random_state := random_state,
    n_jobs := n_jobs, memory_level := memory_level,
    le_ := none, lr_ := none }

/-- Arguments `fMRITaskClassifier.fit` (fmri.py lines 75-82) forwards to
the cached `_logistic_regression` call. -/
structure LRArgs where
  X : Mat
  y : List ℕ
  standardize : Bool
  C : CParam
  tol : ℚ
  max_iter : MaxIterArg
  n_jobs : ℕ
  random_state : Option ℕ

/-- The argument record `fMRITaskClassifier.fit` builds: `X` from
`self.transformer.transform(imgs)`, `y` through a fresh `LabelEncoder`,
and the stored hyperparameters — in particular `max_iter=self.max_iter`,
which is the accidental one-element tuple. -/
def fMRITaskClassifier.fitArgs (st : FMRIClfState) (imgs : Mat)
    (y : List ℕ) : LRArgs :=
  { X := st.transformer.transform imgs,
    y := (LabelEnc.fitOn y).transformList y,
    standardize := st.standardize, C := st.C, tol := st.tol,
    max_iter := MaxIterArg.tuple st.max_iter.val,
    n_jobs := st.n_jobs, random_state := st.random_state }

/-- `fMRITaskClassifier.fit` (fmri.py lines 71-82): transform the inputs,
fit a label encoder, call the cached `_logistic_regression` with the
stored hyperparameters (defaults for `early_tol`, `early_max_iter`,
`test_size=0.1`, `verbose=0`), and store the encoder and estimator. -/
def fMRITaskClassifier.fit (st : FMRIClfState) (imgs : Mat) (y : List ℕ)
    (score : ℚ → ℚ) : Except PyErr FMRIClfState :=
  let a := fMRITaskClassifier.fitArgs st imgs y
  match logisticRegression a.X a.y a.standardize a.C a.tol a.max_iter
      none none (1 / 10) a.n_jobs 0 a.random_state score with
  | .error e => .error e
  | .ok (lr, _) =>
    .ok { st with le_ := some (LabelEnc.fitOn y), lr_ := some lr }

/-- `fMRITaskClassifier.predict` (fmri.py lines 84-88): the first statement
is `X = self.transformer(imgs, ...)` — a call of the transformer object
itself, not of its `transform` method — which raises `TypeError` when the
object is not callable; then `self.lr_.predict(X)` and
`self.le_.inverse_transform(y)`, each raising `AttributeError` when `fit`
never assigned the attribute. -/
def fMRITaskClassifier.predict (st : FMRIClfState) (imgs : Mat) :
    Except PyErr (List ℕ) :=
  match st.transformer.call with
  | none => .error .typeError
  | some f =>
    let X := f imgs
    match st.lr_ with
    | none => .error .attributeError
    | some lr =>
      match st.le_ with
      | none => .error .attributeError
      | some le => .ok (le.inverse_transform (lr.predictOn X))

/-- Modelled from the spec: the `CodeSolver` component of the decomposition
engine is not present in the sources (its implementation lives in the
compiled `dict_fact_fast` module referenced by
`src/modl/decomposition/faster/setup.py`).  Following spec section 4.1, the
k-by-k matrix of the normal equations of the masked ridge problem
minimize (1/2)*norm(mask*(sample - code*D))^2 + alpha*norm(code)^2:
its `(i, j)` entry is the masked correlation of rows `i` and `j` of the
dictionary, plus `alpha` on the diagonal. -/
def CodeSolver.gram {k p : ℕ} (mask : Fin p → Bool)
    (D : Fin k → Fin p → ℚ) (alpha : ℚ) : Fin k → Fin k → ℚ :=
  fun i j =>
    (∑ l, if mask l then D i l * D j l else 0) + (if i = j then alpha else 0)

/-- Modelled from the spec: right-hand side of the masked ridge normal
equations of `CodeSolver.solve` (spec section 4.1) — the masked correlation
of each dictionary row with the sample. -/
def CodeSolver.rhsVec {k p : ℕ} (mask : Fin p → Bool)
    (D : Fin k → Fin p → ℚ) (x : Fin p → ℚ) : Fin k → ℚ :=
  fun i => ∑ l, if mask l then D i l * x l else 0

/-- Modelled from the spec: `CodeSolver.solve` returns a code vector
solving the small k-by-k linear system of the masked ridge problem (spec
section 4.1); this predicate says that `c` is such a solution. -/
def CodeSolver.solves {k p : ℕ} (mask : Fin p → Bool)
    (D : Fin k → Fin p → ℚ) (alpha : ℚ) (x : Fin p → ℚ)
    (c : Fin k → ℚ) : Prop :=
  ∀ i, (∑ j, CodeSolver.gram mask D alpha i j * c j) =
    CodeSolver.rhsVec mask D x i

/-- Squared Euclidean norm of a dictionary row. -/
def DictionaryUpdater.normSq {p : ℕ} (r : Fin p → ℝ) : ℝ :=
  ∑ i, r i ^ 2

/-- Modelled from the spec: the `DictionaryUpdater` component is not
present in the sources (compiled `dict_fact_fast` module).  Projection of
one updated dictionary row onto the bounded-norm feasible set (spec
sections 3 and 4.3): a row inside the unit ball is kept, a longer row is
rescaled to unit norm. -/
noncomputable def DictionaryUpdater.projRow {p : ℕ} (r : Fin p → ℝ) :
    Fin p → ℝ :=
  if DictionaryUpdater.normSq r ≤ 1 then r
  else fun i => r i / Real.sqrt (DictionaryUpdater.normSq r)

/-- Modelled from the spec: one `DictionaryUpdater.update` step (spec
section 4.3) recomputes the dictionary rows by block-coordinate descent
against the updated statistics `A`, `B` — abstracted here as the
already-recomputed rows `newRows`, since the spec fixes no particular
descent — and then projects every row back onto the bounded-norm feasible
set. -/
noncomputable def DictionaryUpdater.update {k p : ℕ}
    (newRows : Fin k → Fin p → ℝ) : Fin k → Fin p → ℝ :=
  fun i => DictionaryUpdater.projRow (newRows i)

theorem selectBest_cons (score : ℚ → ℚ) (c d : ℚ) (t : List ℚ) :
    selectBest score c (d :: t) =
      selectBest score (if score c < score d then d else c) t := rfl

theorem selectBest_mem (score : ℚ → ℚ) :
    ∀ (cs : List ℚ) (c : ℚ), selectBest score c cs ∈ c :: cs := by
  intro cs
  induction cs with
  | nil => intro c; simp [selectBest]
  | cons d t ih =>
    intro c
    rw [selectBest_cons]
    by_cases hcd : score c < score d
    · rw [if_pos hcd]
      rcases List.mem_cons.mp (ih d) with h | h
      · rw [h]; simp
      · exact List.mem_cons_of_mem _ (List.mem_cons_of_mem _ h)
    · rw [if_neg hcd]
      rcases List.mem_cons.mp (ih c) with h | h
      · rw [h]; simp
      · exact List.mem_cons_of_mem _ (List.mem_cons_of_mem _ h)

theorem selectBest_le (score : ℚ → ℚ) :
    ∀ (cs : List ℚ) (c x : ℚ), x ∈ c :: cs →
      score x ≤ score (selectBest score c cs) := by
  intro cs
  induction cs with
  | nil =>
    intro c x hx
    simp only [List.mem_singleton] at hx
    subst hx; simp [selectBest]
  | cons d t ih =>
    intro c x hx
    rw [selectBest_cons]
    have hb : score c ≤ score (if score c < score d then d else c) ∧
        score d ≤ score (if score c < score d then d else c) := by
      by_cases hcd : score c < score d
      · simp only [if_pos hcd]
        exact ⟨le_of_lt hcd, le_refl _⟩
      · simp only [if_neg hcd]
        exact ⟨le_refl _, le_of_not_lt hcd⟩
    have hbsel := ih (if score c < score d then d else c)
        (if score c < score d then d else c) (List.mem_cons_self _ _)
    rcases List.mem_cons.mp hx with hx | hx
    · subst hx; exact le_trans hb.1 hbsel
    · rcases List.mem_cons.mp hx with hx | hx
      · subst hx; exact le_trans hb.2 hbsel
      · exact ih _ x (List.mem_cons_of_mem _ hx)

/-- C1: the claim says every scalar (non-iterable) `C` is accepted by
`_logistic_regression` and the grid-search object is never used undefined.
The code violates this: `grid_lr.fit(X_train, y_train)` runs
unconditionally, so for a plain number `C` — here the default `C=1` on a
1-by-1 training set — the local variable `grid_lr` was never assigned and
the call raises `NameError` instead of completing the fit. -/
theorem logisticRegression_scalar_C_nameError :
    logisticRegression ⟨1, 1, fun _ _ => 0⟩ [0] false (CParam.num 1)
      (1 / 10000) (MaxIterArg.int 100) none none (1 / 10) 1 0 none
      (fun _ => 0) = Except.error PyErr.nameError := rfl

/-- C9: every `MultiProjectionTransformer` built by `__init__` — which
assigns only `bases` and `identity` — fails in `fit` with
`AttributeError`: the first statement reads the never-assigned attribute
`basis`, so `fit` errors before `n_loadings_` is computed, on every
input. -/
theorem fit_reads_missing_basis_attrError (bases : List Mat)
    (identity : Bool) :
    MultiProjectionTransformer.fit
        (MultiProjectionTransformer.init bases identity) =
      Except.error PyErr.attributeError := rfl

/-- C10: `fMRITaskClassifier.__init__` stores `max_iter` wrapped in a
one-element tuple (trailing comma on `self.max_iter = max_iter,`) while
storing every other constructor argument unchanged, and `fit` forwards
that tuple — not the configured integer — as the `max_iter` argument of
the cached `_logistic_regression` call. -/
theorem init_wraps_max_iter_in_tuple (t : TransformerObj) (C : CParam)
    (std : Bool) (mi tol : ℚ) (rs : Option ℕ) (nj ml : ℕ)
    (imgs : Mat) (y : List ℕ) :
    (fMRITaskClassifier.init t C std mi tol rs nj ml).max_iter =
        PyTuple1.mk mi ∧
      (fMRITaskClassifier.init t C std mi tol rs nj ml).transformer = t ∧
      (fMRITaskClassifier.init t C std mi tol rs nj ml).C = C ∧
      (fMRITaskClassifier.init t C std mi tol rs nj ml).standardize = std ∧
      (fMRITaskClassifier.init t C std mi tol rs nj ml).tol = tol ∧
      (fMRITaskClassifier.init t C std mi tol rs nj ml).random_state = rs ∧
      (fMRITaskClassifier.init t C std mi tol rs nj ml).n_jobs = nj ∧
      (fMRITaskClassifier.init t C std mi tol rs nj ml).memory_level = ml ∧
      (fMRITaskClassifier.fitArgs
          (fMRITaskClassifier.init t C std mi tol rs nj ml) imgs y).max_iter =
        MaxIterArg.tuple mi ∧
      MaxIterArg.tuple mi ≠ MaxIterArg.int mi := by
  refine ⟨rfl, rfl, rfl, rfl, rfl, rfl, rfl, rfl, rfl, ?_⟩
  intro h
  exact MaxIterArg.noConfusion h

/-- C5: calling `predict` on an `fMRITaskClassifier` fresh from
`__init__` — before `fit` was ever called, so `lr_` and `le_` are
unassigned — raises an error and never returns a label array: `TypeError`
when the transformer object is not callable, otherwise `AttributeError`
on the missing `lr_`. -/
theorem predict_before_fit_errors (t : TransformerObj) (C : CParam)
    (std : Bool) (mi tol : ℚ) (rs : Option ℕ) (nj ml : ℕ) (imgs : Mat) :
    ∃ e, fMRITaskClassifier.predict
        (fMRITaskClassifier.init t C std mi tol rs nj ml) imgs =
      Except.error e := by
  cases h : t.call with
  | none =>
    exact ⟨PyErr.typeError,
      by simp [fMRITaskClassifier.predict, fMRITaskClassifier.init, h]⟩
  | some f =>
    exact ⟨PyErr.attributeError,
      by simp [fMRITaskClassifier.predict, fMRITaskClassifier.init, h]⟩

/-- C2: the claim says that on a fitted classifier `predict` succeeds,
transforming the inputs with the fitted transformer's `transform`.  The
code instead evaluates `X = self.transformer(imgs, ...)` — calling the
transformer object itself.  A `MultiProjectionTransformer` defines no
`__call__`, so even on a state where `lr_` and `le_` are present (the
post-`fit` shape), `predict` raises `TypeError` and returns no labels, as
this concrete evaluation shows. -/
theorem predict_transformer_call_typeError :
    fMRITaskClassifier.predict
      { transformer := { transform := fun X => X, call := none },
        C := CParam.num 1, standardize := false, max_iter := ⟨100⟩,
        tol := 1 / 10000, random_state := none, n_jobs := 1,
        memory_level := 1, le_ := some ⟨[0]⟩,
        lr_ := some ⟨CParam.num 1, 1 / 10000, MaxIterArg.int 100, false,
          none, some (⟨1, 1, fun _ _ => 0⟩, [0]), 1⟩ }
      ⟨1, 1, fun _ _ => 0⟩ = Except.error PyErr.typeError := rfl

/-- C3 counterexample: at the function's default `standardize=False` with a
positive `tol = 1`, `early_tol` unset and a non-empty iterable `C`, the
per-candidate `set_params` of `logistic_regression__C` on the bare
`LogisticRegression` raises `ValueError` inside `grid_lr.fit`, so no final
estimator is ever set to tolerance `tol` and refitted — the claimed
relation between a search-phase tolerance and a final-refit tolerance
fails as stated on this input. -/
theorem gridSearch_std_false_raises_valueError :
    logisticRegression ⟨1, 1, fun _ _ => 0⟩ [0] false
      (CParam.list (1 :: [])) 1 (MaxIterArg.int 100) none none (1 / 10)
      1 0 none (fun _ => 0) = Except.error PyErr.valueError := rfl

/-- C3 (amended): with `early_tol` left unset, a positive `tol`, and
standardization enabled — so the estimator is the `Pipeline` that the
`logistic_regression__`-prefixed parameter names address and the grid
search can run — the estimator handed to the grid search runs at
tolerance `tol * 1e2`, strictly looser than the tolerance `tol` that
`set_params` installs on the final estimator before its last fit: the
final refit is stricter than the search phase. -/
theorem gridSearch_early_tol_looser_than_final (X : Mat) (y : List ℕ)
    (c0 : ℚ) (rest : List ℚ) (tol n ts : ℚ) (nj v : ℕ)
    (rs : Option ℕ) (score : ℚ → ℚ) (htol : 0 < tol) :
    ∃ lr g, logisticRegression X y true (CParam.list (c0 :: rest)) tol
        (MaxIterArg.int n) none none ts nj v rs score = Except.ok (lr, g) ∧
      g.estimator.tol = tol * 100 ∧ lr.tol = tol ∧
      lr.tol < g.estimator.tol := by
  refine ⟨_, _, rfl, rfl, rfl, ?_⟩
  show tol < tol * 100
  linarith

/-- C3 witness: the amended theorem instantiated at `tol = 1` on a
concrete one-point grid with standardization enabled. -/
theorem gridSearch_early_tol_looser_than_final_witness :
    (0 : ℚ) < 1 ∧
    ∃ lr g, logisticRegression ⟨1, 1, fun _ _ => 0⟩ [0] true
        (CParam.list (1 :: [])) 1 (MaxIterArg.int 100) none none (1 / 10)
        1 0 none (fun _ => 0) = Except.ok (lr, g) ∧
      g.estimator.tol = 1 * 100 ∧ lr.tol = 1 ∧
      lr.tol < g.estimator.tol :=
  ⟨by norm_num,
    gridSearch_early_tol_looser_than_final ⟨1, 1, fun _ _ => 0⟩ [0]
      1 [] 1 100 (1 / 10) 1 0 none (fun _ => 0) (by norm_num)⟩

/-- C4 counterexample: for the non-empty iterable `C = [1, 2]` with the
default `standardize=False`, the grid path does not complete: the
per-candidate `set_params` of `logistic_regression__C` on the bare
`LogisticRegression` raises `ValueError` inside `grid_lr.fit`, so no best
parameter is applied and no final fit happens — the claim as stated
(every iterable `C` reaches the manual final fit) fails on this input. -/
theorem iterable_grid_std_false_raises_valueError :
    logisticRegression ⟨1, 1, fun _ _ => 0⟩ [0] false
      (CParam.list (1 :: 2 :: [])) (1 / 10000) (MaxIterArg.int 100) none
      none (1 / 10) 1 0 none (fun _ => 0) =
      Except.error PyErr.valueError := rfl

/-- C4 (amended): for an iterable candidate set `C = c0 :: rest`, with
standardization enabled — so the estimator is the `Pipeline` addressed by
the `logistic_regression__`-prefixed parameter names —
`_logistic_regression` builds the grid search over exactly that set with
shuffled splits (`ShuffleSplit`) and `refit=False`, its best parameter is
the candidate maximizing the held-out score, `set_params` installs exactly
that best parameter on the estimator, and one manual final fit runs on the
full training data. -/
theorem logisticRegression_iterable_grid_path (X : Mat) (y : List ℕ)
    (c0 : ℚ) (rest : List ℚ) (tol n ts : ℚ) (nj v : ℕ)
    (rs : Option ℕ) (score : ℚ → ℚ) :
    ∃ lr g, logisticRegression X y true (CParam.list (c0 :: rest)) tol
        (MaxIterArg.int n) none none ts nj v rs score = Except.ok (lr, g) ∧
      g.param_grid = c0 :: rest ∧
      g.cv_shuffled = true ∧
      g.refit = false ∧
      g.best_params_ = some (selectBest score c0 rest) ∧
      selectBest score c0 rest ∈ c0 :: rest ∧
      (∀ x ∈ c0 :: rest, score x ≤ score (selectBest score c0 rest)) ∧
      lr.C = CParam.num (selectBest score c0 rest) ∧
      lr.fitted = some (X, y) ∧
      lr.nFits = 1 :=
  ⟨_, _, rfl, rfl, rfl, rfl, rfl, selectBest_mem score rest c0,
    selectBest_le score rest c0, rfl, rfl, rfl⟩

theorem sumRows_cons (b : Mat) (t : List Mat) :
    sumRows (b :: t) = b.rows + sumRows t := by
  simp [sumRows]

theorem blockEntry_isSome (lsolve : Mat → Mat → Mat) (X : Mat) :
    ∀ (bs : List Mat) (off i j : ℕ), off ≤ j → j < off + sumRows bs →
      (blockEntry lsolve X bs off i j).isSome = true := by
  intro bs
  induction bs with
  | nil =>
    intro off i j hoff hj
    rw [sumRows] at hj
    simp at hj
    omega
  | cons b t ih =>
    intro off i j hoff hj
    rw [sumRows_cons] at hj
    by_cases hcase : j < off + b.rows
    · simp [blockEntry, hcase]
    · rw [blockEntry, if_neg hcase]
      exact ih (off + b.rows) i j (by omega) (by omega)

/-- C6: projection is deterministic.  Two `transform` calls on the same
fitted transformer state (same bases, same `identity` flag, and an
`n_loadings_` no larger than the columns the method writes — which is what
a completed `fit` would establish) and the same sample matrix return
identical loading matrices, even though the two calls may start from
different uninitialized `np.empty` buffers `mem1` and `mem2`; the external
linear solver `lsolve` is the same fixed function in both runs. -/
theorem transform_deterministic (lsolve : Mat → Mat → Mat)
    (mem1 mem2 : ℕ → ℕ → ℚ) (st : MPTState) (X : Mat) (L : ℕ)
    (hL : st.n_loadings_ = some L)
    (hfit : st.identity = true ∨ L ≤ sumRows st.bases) :
    MultiProjectionTransformer.transform lsolve mem1 st X =
      MultiProjectionTransformer.transform lsolve mem2 st X := by
  unfold MultiProjectionTransformer.transform
  rw [hL]
  have hentry : (fun i j =>
      if j < L then
        match blockEntry lsolve X st.bases 0 i j with
        | some v => v
        | none =>
          if st.identity = true ∧ sumRows st.bases ≤ j then
            X.entry i (j - sumRows st.bases)
          else mem1 i j
      else 0) = (fun i j =>
      if j < L then
        match blockEntry lsolve X st.bases 0 i j with
        | some v => v
        | none =>
          if st.identity = true ∧ sumRows st.bases ≤ j then
            X.entry i (j - sumRows st.bases)
          else mem2 i j
      else 0) := by
    funext i j
    by_cases hj : j < L
    · rw [if_pos hj, if_pos hj]
      cases hbe : blockEntry lsolve X st.bases 0 i j with
      | some v => rfl
      | none =>
        have hsum : sumRows st.bases ≤ j := by
          by_contra hlt
          push_neg at hlt
          have hs := blockEntry_isSome lsolve X st.bases 0 i j
            (Nat.zero_le j) (by omega)
          rw [hbe] at hs
          simp at hs
        have hid : st.identity = true := by
          rcases hfit with h | h
          · exact h
          · exact absurd (lt_of_lt_of_le hj h) (not_lt.mpr hsum)
        rw [if_pos ⟨hid, hsum⟩, if_pos ⟨hid, hsum⟩]
    · rw [if_neg hj, if_neg hj]
  exact congrArg (fun f => Except.ok (Mat.mk X.rows L f)) hentry

/-- C6 witness: the theorem applied to a concrete fitted state (one
1-by-1 basis, `identity` off, `n_loadings_ = 1`) and two different
uninitialized buffers. -/
theorem transform_deterministic_witness :
    (MPTState.mk (⟨1, 1, fun _ _ => 0⟩ :: []) false none (some 1)).n_loadings_
        = some 1 ∧
      ((MPTState.mk (⟨1, 1, fun _ _ => 0⟩ :: []) false none
          (some 1)).identity = true ∨
        1 ≤ sumRows (MPTState.mk (⟨1, 1, fun _ _ => 0⟩ :: []) false none
          (some 1)).bases) ∧
      MultiProjectionTransformer.transform (fun _ B => B) (fun _ _ => 0)
          (MPTState.mk (⟨1, 1, fun _ _ => 0⟩ :: []) false none (some 1))
          ⟨1, 1, fun _ _ => 2⟩ =
        MultiProjectionTransformer.transform (fun _ B => B) (fun _ _ => 1)
          (MPTState.mk (⟨1, 1, fun _ _ => 0⟩ :: []) false none (some 1))
          ⟨1, 1, fun _ _ => 2⟩ :=
  ⟨rfl, Or.inr (by simp [sumRows]),
    transform_deterministic (fun _ B => B) (fun _ _ => 0) (fun _ _ => 1)
      (MPTState.mk (⟨1, 1, fun _ _ => 0⟩ :: []) false none (some 1))
      ⟨1, 1, fun _ _ => 2⟩ 1 rfl (Or.inr (by simp [sumRows]))⟩

/-- C7: for every sample, dictionary and positive regularization `alpha`,
the masked ridge system that `CodeSolver.solve` answers degenerates, under
an all-zero mask, to `alpha * c = 0`: its unique solution is the
k-dimensional zero code vector, so the solver returns zero and no
degenerate-system fallback is needed. -/
theorem zero_mask_solution_iff_zero (k p : ℕ) (mask : Fin p → Bool)
    (D : Fin k → Fin p → ℚ) (alpha : ℚ) (x : Fin p → ℚ) (c : Fin k → ℚ)
    (halpha : 0 < alpha) (hm : ∀ l, mask l = false) :
    CodeSolver.solves mask D alpha x c ↔ c = fun _ => 0 := by
  have hg : ∀ i j, CodeSolver.gram mask D alpha i j =
      if i = j then alpha else 0 := by
    intro i j
    simp [CodeSolver.gram, hm]
  have hr : ∀ i, CodeSolver.rhsVec mask D x i = 0 := by
    intro i
    simp [CodeSolver.rhsVec, hm]
  constructor
  · intro h
    funext i
    have hi := h i
    rw [hr i] at hi
    have hsum : (∑ j, CodeSolver.gram mask D alpha i j * c j) =
        alpha * c i := by
      rw [Finset.sum_congr rfl (fun j _ => by rw [hg i j, ite_mul, zero_mul]),
        Finset.sum_ite_eq]
      simp
    rw [hsum] at hi
    rcases mul_eq_zero.mp hi with h0 | h0
    · exact absurd h0 (ne_of_gt halpha)
    · exact h0
  · intro hc i
    subst hc
    rw [hr i]
    simp

/-- C7 witness: the theorem applied at a concrete one-component,
one-feature instance with the all-zero mask and `alpha = 1`. -/
theorem zero_mask_solution_iff_zero_witness :
    (0 : ℚ) < 1 ∧ (∀ l : Fin 1, (fun _ : Fin 1 => false) l = false) ∧
      (CodeSolver.solves (fun _ : Fin 1 => false)
          (fun _ _ : Fin 1 => (1 : ℚ)) 1 (fun _ => 1) (fun _ => 0) ↔
        (fun _ : Fin 1 => (0 : ℚ)) = fun _ => 0) :=
  ⟨by norm_num, fun _ => rfl,
    zero_mask_solution_iff_zero 1 1 (fun _ => false) (fun _ _ => 1) 1
      (fun _ => 1) (fun _ => 0) (by norm_num) (fun _ => rfl)⟩

/-- C8: the row-norm bound is an invariant of fitting — after any
`DictionaryUpdater.update` step, every dictionary row has squared norm,
and hence Euclidean norm, at most `1`, because each recomputed row is
projected back onto the bounded-norm feasible set. -/
theorem update_row_normSq_le_one (k p : ℕ) (newRows : Fin k → Fin p → ℝ)
    (i : Fin k) :
    DictionaryUpdater.normSq (DictionaryUpdater.update newRows i) ≤ 1 ∧
      Real.sqrt (DictionaryUpdater.normSq
        (DictionaryUpdater.update newRows i)) ≤ 1 := by
  have hmain : DictionaryUpdater.normSq
      (DictionaryUpdater.update newRows i) ≤ 1 := by
    show DictionaryUpdater.normSq (DictionaryUpdater.projRow (newRows i)) ≤ 1
    unfold DictionaryUpdater.projRow
    by_cases h : DictionaryUpdater.normSq (newRows i) ≤ 1
    · rw [if_pos h]
      exact h
    · rw [if_neg h]
      have hnn : 0 ≤ DictionaryUpdater.normSq (newRows i) :=
        Finset.sum_nonneg fun j _ => sq_nonneg _
      have h1 : 1 < DictionaryUpdater.normSq (newRows i) := not_le.mp h
      have hs : Real.sqrt (DictionaryUpdater.normSq (newRows i)) ^ 2 =
          DictionaryUpdater.normSq (newRows i) := Real.sq_sqrt hnn
      have hns : DictionaryUpdater.normSq (fun j => newRows i j /
          Real.sqrt (DictionaryUpdater.normSq (newRows i))) =
          (∑ j, newRows i j ^ 2) /
            Real.sqrt (DictionaryUpdater.normSq (newRows i)) ^ 2 := by
        unfold DictionaryUpdater.normSq
        simp only [div_pow]
        rw [← Finset.sum_div]
      rw [hns]
      have hsum : (∑ j, newRows i j ^ 2) =
          DictionaryUpdater.normSq (newRows i) := rfl
      rw [hsum, hs, div_self (ne_of_gt (by linarith))]
  exact ⟨hmain, Real.sqrt_le_one.mpr hmain⟩
